import Mathlib

set_option maxRecDepth 8000

/-!
# Verification of the Day 17 crawler's orchestration and formatting logic

Shallow embedding of `src/Day 17/crawler.py`: the script configures an
external crawling service with fixed constants, then formats the returned
ordered sequence of page results into markdown, text and JSON documents
written under `crawl_results/` with a shared timestamp token.

The external crawling engine itself is out of scope (the spec treats it as
an opaque collaborator); everything below models the configuration object,
the derivation rules applied per page result, the three document builders,
the JSON serializer (`json.dump` with `indent=2, ensure_ascii=False`), and
the timestamped file-name generation.
-/

/-- `crawl4ai.deep_crawling.BFSDeepCrawlStrategy(...)` as configured at
`crawler.py` lines 12-16: only the fields the script sets. -/
structure BFSDeepCrawlStrategy where
  max_depth : Nat
  max_pages : Nat
  include_external : Bool
deriving Repr, DecidableEq

/-- `crawl4ai.CrawlerRunConfig(...)` as configured at `crawler.py`
lines 11-19 (the scraping strategy carries no data the formatter sees,
so it is recorded as a tag). -/
structure CrawlerRunConfig where
  deep_crawl_strategy : BFSDeepCrawlStrategy
  scraping_strategy_is_lxml : Bool
  verbose : Bool
deriving Repr, DecidableEq

/-- The hard-coded configuration object built at `crawler.py` lines 11-19. -/
def config : CrawlerRunConfig :=
  { deep_crawl_strategy :=
      { max_depth := 2
        max_pages := 200
        include_external := false }
    scraping_strategy_is_lxml := true
    verbose := true }

/-- The seed URL passed to `crawler.arun` at `crawler.py` line 22. -/
def seed_url : String := "https://www.wikipedia.org"

/-- The full argument pair of the single external-service call
`crawler.arun("https://www.wikipedia.org", config=config)` (line 22). -/
def crawl_invocation : String × CrawlerRunConfig := (seed_url, config)

/-- The `result.metadata` dictionary as the script reads it: three keys,
each possibly missing, accessed with `dict.get(key, default)`. -/
structure Metadata where
  depth : Option Int
  title : Option String
  description : Option String
deriving Repr, DecidableEq

/-- The `result.links` dictionary when the attribute is present and truthy;
the script reads only `links.get('internal', [])` (line 106). -/
structure LinksDict where
  internal : Option (List String)
  external : Option (List String)
deriving Repr, DecidableEq

/-- The `result.media` dictionary when the attribute is present and truthy;
the script reads only `media.get('images', [])` (line 107). -/
structure MediaDict where
  images : Option (List String)
deriving Repr, DecidableEq

/-- One element of the ordered result sequence returned by the external
service. `cleaned_html` is `Option String`: `none` models Python `None`,
`some ""` a present-but-empty string (the two are distinguishable even
though the script's truthiness tests conflate them). `links = none` /
`media = none` model the attribute being absent (`hasattr` false) or the
dictionary being falsy. -/
structure PageResult where
  url : String
  status_code : Int
  cleaned_html : Option String
  metadata : Metadata
  links : Option LinksDict
  media : Option MediaDict
deriving Repr, DecidableEq

/-- Python truthiness of an optional string: `None` and `""` are falsy. -/
def pyTruthy : Option String → Bool
  | none => false
  | some s => !(s == "")

/-- Python `x or ""` on an optional string. -/
def pyOrEmpty (ch : Option String) : String :=
  if pyTruthy ch then ch.getD "" else ""

/-- `len(result.cleaned_html) if result.cleaned_html else 0`
(lines 52, 76, 102). Python `len` counts code points, as does
`String.length`. -/
def content_length (r : PageResult) : Nat :=
  if pyTruthy r.cleaned_html then (r.cleaned_html.getD "").length else 0

/-- `result.cleaned_html[:500] + "..." if len(result.cleaned_html) > 500
else result.cleaned_html` — the `content_preview` expression repeated at
lines 56 and 80. Python slicing `s[:500]` takes the first 500 code points,
as does `String.take`. -/
def preview500 (s : String) : String :=
  if s.length > 500 then s.take 500 ++ "..." else s

/-- The markdown preview block body: `some` of the `content_preview`
variable when the `if result.cleaned_html:` guard at line 54 is taken,
`none` when the block is skipped. -/
def mdPreviewBlock (ch : Option String) : Option String :=
  if pyTruthy ch then some (preview500 (ch.getD "")) else none

/-- The text-file preview block body, from the identical guard and
expression at lines 78-80. -/
def txtPreviewBlock (ch : Option String) : Option String :=
  if pyTruthy ch then some (preview500 (ch.getD "")) else none

/-- `result.cleaned_html[:500] + "..." if result.cleaned_html and
len(result.cleaned_html) > 500 else result.cleaned_html or ""`
(line 105). The conjunction short-circuits, so `len` is never taken of
`None`; `getD ""` reproduces the same outcome. -/
def json_content_preview (ch : Option String) : String :=
  if pyTruthy ch && decide ((ch.getD "").length > 500)
  then (ch.getD "").take 500 ++ "..."
  else pyOrEmpty ch

/-- `result.metadata.get('depth', 0)` (lines 50, 74, 100). -/
def page_depth (r : PageResult) : Int :=
  r.metadata.depth.getD 0

/-- `result.metadata.get('title', '')` (line 103). -/
def page_title (r : PageResult) : String :=
  r.metadata.title.getD ""

/-- `result.metadata.get('description', '')` (line 104). -/
def page_description (r : PageResult) : String :=
  r.metadata.description.getD ""

/-- `len(result.links.get('internal', [])) if hasattr(result, 'links') and
result.links else 0` (line 106). -/
def links_found (r : PageResult) : Nat :=
  match r.links with
  | some l => (l.internal.getD []).length
  | none => 0

/-- `len(result.media.get('images', [])) if hasattr(result, 'media') and
result.media else 0` (line 107). -/
def images_found (r : PageResult) : Nat :=
  match r.media with
  | some m => (m.images.getD []).length
  | none => 0

/-- `enumerate(results, start)` as used at lines 47, 71, 96 with
`start = 1`. -/
def pyEnumerate (start : Nat) : List PageResult → List (Nat × PageResult)
  | [] => []
  | r :: rs => (start, r) :: pyEnumerate (start + 1) rs

/-- The per-page markdown section written by the loop at lines 47-59. -/
def mdPageSection (i : Nat) (r : PageResult) : String :=
  "## Page " ++ toString i ++ "\n\n"
  ++ "**URL:** " ++ r.url ++ "\n"
  ++ "**Depth:** " ++ toString (page_depth r) ++ "\n"
  ++ "**Status Code:** " ++ toString r.status_code ++ "\n"
  ++ "**Content Length:** " ++ toString (content_length r) ++ " characters\n\n"
  ++ (match mdPreviewBlock r.cleaned_html with
      | some p => "**Content Preview:**\n```\n" ++ p ++ "\n```\n\n"
      | none => "")
  ++ "---\n\n"

/-- The sequence of numbered markdown page sections
(`for i, result in enumerate(results, 1):` at line 47). -/
def mdsections (results : List PageResult) : List String :=
  (pyEnumerate 1 results).map fun p => mdPageSection p.1 p.2

/-- The full markdown document written at lines 39-59; `crawl_date` is the
`datetime.now().strftime('%Y-%m-%d %H:%M:%S')` string of line 41. -/
def mdDocument (crawl_date : String) (results : List PageResult) : String :=
  "# Web Crawling Results\n\n"
  ++ "**Crawl Date:** " ++ crawl_date ++ "\n"
  ++ "**Total Pages Crawled:** " ++ toString results.length ++ "\n"
  ++ "**Max Pages Limit:** 200\n"
  ++ "**Starting URL:** https://www.wikipedia.org\n\n"
  ++ "---\n\n"
  ++ String.join (mdsections results)

/-- `"=" * 50` and `"-" * 50` (lines 64, 69, 83). -/
def sepLine (c : Char) : String := String.mk (List.replicate 50 c)

/-- The per-page plain-text block written by the loop at lines 71-83. -/
def txtPageSection (i : Nat) (r : PageResult) : String :=
  "PAGE " ++ toString i ++ "\n"
  ++ "URL: " ++ r.url ++ "\n"
  ++ "Depth: " ++ toString (page_depth r) ++ "\n"
  ++ "Status Code: " ++ toString r.status_code ++ "\n"
  ++ "Content Length: " ++ toString (content_length r) ++ " characters\n\n"
  ++ (match txtPreviewBlock r.cleaned_html with
      | some p => "Content Preview:\n" ++ p ++ "\n\n"
      | none => "")
  ++ sepLine '-' ++ "\n\n"

/-- The sequence of numbered text page blocks (line 71). -/
def txtsections (results : List PageResult) : List String :=
  (pyEnumerate 1 results).map fun p => txtPageSection p.1 p.2

/-- The full text document written at lines 62-83. -/
def txtDocument (crawl_date : String) (results : List PageResult) : String :=
  "WEB CRAWLING RESULTS\n"
  ++ sepLine '=' ++ "\n\n"
  ++ "Crawl Date: " ++ crawl_date ++ "\n"
  ++ "Total Pages Crawled: " ++ toString results.length ++ "\n"
  ++ "Max Pages Limit: 200\n"
  ++ "Starting URL: https://www.wikipedia.org\n\n"
  ++ sepLine '-' ++ "\n\n"
  ++ String.join (txtsections results)

/-- Python JSON values as built by the script. Objects keep insertion
order, exactly as Python dictionaries do. -/
inductive JValue where
  | jnull : JValue
  | jbool : Bool → JValue
  | jnum : Int → JValue
  | jstr : String → JValue
  | jarr : List JValue → JValue
  | jobj : List (String × JValue) → JValue
deriving Repr

/-- The `page_data` dictionary built at lines 97-108, in the source's
insertion order. -/
def page_data (i : Nat) (r : PageResult) : List (String × JValue) :=
  [("page_number", JValue.jnum i),
   ("url", JValue.jstr r.url),
   ("depth", JValue.jnum (page_depth r)),
   ("status_code", JValue.jnum r.status_code),
   ("content_length", JValue.jnum (content_length r)),
   ("title", JValue.jstr (page_title r)),
   ("description", JValue.jstr (page_description r)),
   ("content_preview", JValue.jstr (json_content_preview r.cleaned_html)),
   ("links_found", JValue.jnum (links_found r)),
   ("images_found", JValue.jnum (images_found r))]

/-- The `results` array of the JSON document after the append loop at
lines 96-109. -/
def json_results (results : List PageResult) : List JValue :=
  (pyEnumerate 1 results).map fun p => JValue.jobj (page_data p.1 p.2)

/-- The `json_data` dictionary built at lines 86-109; `crawl_date` is the
`datetime.now().strftime('%Y-%m-%d %H:%M:%S')` string of line 88. -/
def json_data (crawl_date : String) (results : List PageResult) : JValue :=
  JValue.jobj
    [("crawl_info", JValue.jobj
        [("crawl_date", JValue.jstr crawl_date),
         ("total_pages_crawled", JValue.jnum results.length),
         ("max_pages_limit", JValue.jnum 200),
         ("starting_url", JValue.jstr "https://www.wikipedia.org")]),
     ("results", JValue.jarr (json_results results))]

/-- Lower-case hexadecimal digit, as in Python's `\uXXXX` escapes. -/
def hexDigit (n : Nat) : Char :=
  if n < 10 then Char.ofNat (48 + n) else Char.ofNat (87 + n)

/-- Escape of a single character under `json.dump(..., ensure_ascii=False)`:
only the backslash, the double quote and control characters below 0x20 are
escaped; every other character — ASCII or not — passes through literally. -/
def escChar (c : Char) : String :=
  if c = '\\' then "\\\\"
  else if c = '\"' then "\\\""
  else if c = '\n' then "\\n"
  else if c = '\t' then "\\t"
  else if c = '\r' then "\\r"
  else if c = Char.ofNat 8 then "\\b"
  else if c = Char.ofNat 12 then "\\f"
  else if c.toNat < 32 then
    "\\u00" ++ String.mk [hexDigit (c.toNat / 16), hexDigit (c.toNat % 16)]
  else String.singleton c

/-- Character-wise escaping of a string body. -/
def escapeChars : List Char → String
  | [] => ""
  | c :: cs => escChar c ++ escapeChars cs

/-- A JSON string literal under `ensure_ascii=False`. -/
def jstrLit (s : String) : String :=
  "\"" ++ escapeChars s.data ++ "\""

/-- `indent=2`: the indentation prefix at nesting depth `d`. -/
def jsonIndent (d : Nat) : String := String.mk (List.replicate (2 * d) ' ')

mutual

/-- Serialization of one JSON value at nesting depth `d`, reproducing
`json.dump(obj, f, indent=2, ensure_ascii=False)` (line 112): each item of
a non-empty container on its own line, items separated by `",\n"`, keys
followed by `": "`, closing bracket on the container's own indent level. -/
def serJ (d : Nat) : JValue → String
  | JValue.jnull => "null"
  | JValue.jbool b => if b then "true" else "false"
  | JValue.jnum n => toString n
  | JValue.jstr s => jstrLit s
  | JValue.jarr [] => "[]"
  | JValue.jarr (x :: xs) =>
      "[\n" ++ serArr (d + 1) (x :: xs) ++ "\n" ++ jsonIndent d ++ "]"
  | JValue.jobj [] => "\x7b\x7d"
  | JValue.jobj (f :: fs) =>
      "\x7b\n" ++ serObj (d + 1) (f :: fs) ++ "\n" ++ jsonIndent d ++ "\x7d"

/-- Serialization of the items of a non-empty JSON array. -/
def serArr (d : Nat) : List JValue → String
  | [] => ""
  | [x] => jsonIndent d ++ serJ d x
  | x :: y :: xs => jsonIndent d ++ serJ d x ++ ",\n" ++ serArr d (y :: xs)

/-- Serialization of the members of a non-empty JSON object. -/
def serObj (d : Nat) : List (String × JValue) → String
  | [] => ""
  | [(k, v)] => jsonIndent d ++ jstrLit k ++ ": " ++ serJ d v
  | (k, v) :: f :: fs =>
      jsonIndent d ++ jstrLit k ++ ": " ++ serJ d v ++ ",\n" ++ serObj d (f :: fs)

end

/-- `json.dump(json_data, json_file, indent=2, ensure_ascii=False)`
(line 112): the full text written to the JSON file. -/
def jsonDump (v : JValue) : String := serJ 0 v

/-- One reading of `datetime.now()`: the clock fields the two `strftime`
format strings of the script consume. -/
structure PyDateTime where
  year : Nat
  month : Nat
  day : Nat
  hour : Nat
  minute : Nat
  second : Nat
deriving Repr, DecidableEq

/-- Zero-padding to two digits, as `%m %d %H %M %S` produce. -/
def zfill2 (n : Nat) : String :=
  if n < 10 then "0" ++ toString n else toString n

/-- Zero-padding to four digits, as `%Y` produces. -/
def zfill4 (n : Nat) : String :=
  if n < 10 then "000" ++ toString n
  else if n < 100 then "00" ++ toString n
  else if n < 1000 then "0" ++ toString n
  else toString n

/-- `datetime.now().strftime("%Y%m%d_%H%M%S")` (line 31). -/
def run_timestamp (dt : PyDateTime) : String :=
  zfill4 dt.year ++ zfill2 dt.month ++ zfill2 dt.day ++ "_"
  ++ zfill2 dt.hour ++ zfill2 dt.minute ++ zfill2 dt.second

/-- `results_dir = "crawl_results"` (line 27). -/
def results_dir : String := "crawl_results"

/-- Lines 31-36: the timestamp is computed once and the three file paths
are built from it with `os.path.join` (POSIX separator). The triple is
(markdown, text, JSON). -/
def output_filenames (dt : PyDateTime) : String × String × String :=
  let timestamp := run_timestamp dt
  (results_dir ++ "/" ++ "crawl_results_" ++ timestamp ++ ".md",
   results_dir ++ "/" ++ "crawl_results_" ++ timestamp ++ ".txt",
   results_dir ++ "/" ++ "crawl_results_" ++ timestamp ++ ".json")

/-- A page result with everything present except a parameterized
`cleaned_html`; used to instantiate the universally quantified theorems at
concrete inputs. -/
def samplePage (ch : Option String) : PageResult :=
  { url := "https://www.wikipedia.org"
    status_code := 200
    cleaned_html := ch
    metadata := { depth := some 1, title := some "Wikipedia", description := some "Home" }
    links := some { internal := some ["u", "v"], external := some [] }
    media := some { images := some ["i.png"] } }

/-- A 501-character content string (past the preview cutoff). -/
def longContent : String := String.mk (List.replicate 501 'a')

/-- A 500-character content string (exactly at the preview cutoff). -/
def fullContent : String := String.mk (List.replicate 500 'b')

/-- C1: for every PageResult whose cleaned_content is longer than 500
characters, the content preview emitted for that page equals the first 500
characters of cleaned_content followed by "..." — identically in the
markdown, text, and JSON outputs. -/
theorem long_content_preview_truncated (r : PageResult) (c : String)
    (hc : r.cleaned_html = some c) (hlen : 500 < c.length) :
    mdPreviewBlock r.cleaned_html = some (c.take 500 ++ "...") ∧
    txtPreviewBlock r.cleaned_html = some (c.take 500 ++ "...") ∧
    json_content_preview r.cleaned_html = c.take 500 ++ "..." := by
  have hne : c ≠ "" := by
    intro h
    rw [h] at hlen
    simp at hlen
  rw [hc]
  simp [mdPreviewBlock, txtPreviewBlock, json_content_preview, preview500,
    pyTruthy, pyOrEmpty, hlen, hne]

theorem long_content_preview_truncated_witness :
    mdPreviewBlock (samplePage (some longContent)).cleaned_html
        = some (longContent.take 500 ++ "...") ∧
    txtPreviewBlock (samplePage (some longContent)).cleaned_html
        = some (longContent.take 500 ++ "...") ∧
    json_content_preview (samplePage (some longContent)).cleaned_html
        = longContent.take 500 ++ "..." :=
  long_content_preview_truncated (samplePage (some longContent)) longContent
    rfl (by decide)

/-- C2: for every PageResult whose cleaned_content is absent, the derived
content_length is 0, the JSON content_preview is the empty string, and the
markdown and text page sections consist of the header lines only, with no
preview block. -/
theorem absent_content_defaults (r : PageResult) (i : Nat)
    (h : r.cleaned_html = none) :
    content_length r = 0 ∧
    json_content_preview r.cleaned_html = "" ∧
    mdPreviewBlock r.cleaned_html = none ∧
    txtPreviewBlock r.cleaned_html = none ∧
    mdPageSection i r =
      "## Page " ++ toString i ++ "\n\n"
      ++ "**URL:** " ++ r.url ++ "\n"
      ++ "**Depth:** " ++ toString (page_depth r) ++ "\n"
      ++ "**Status Code:** " ++ toString r.status_code ++ "\n"
      ++ "**Content Length:** " ++ toString (content_length r) ++ " characters\n\n"
      ++ "---\n\n" ∧
    txtPageSection i r =
      "PAGE " ++ toString i ++ "\n"
      ++ "URL: " ++ r.url ++ "\n"
      ++ "Depth: " ++ toString (page_depth r) ++ "\n"
      ++ "Status Code: " ++ toString r.status_code ++ "\n"
      ++ "Content Length: " ++ toString (content_length r) ++ " characters\n\n"
      ++ sepLine '-' ++ "\n\n" := by
  refine ⟨?_, ?_, ?_, ?_, ?_, ?_⟩ <;>
    simp [content_length, json_content_preview, mdPreviewBlock, txtPreviewBlock,
      mdPageSection, txtPageSection, pyTruthy, pyOrEmpty, h,
      String.append_assoc, String.append_empty]

theorem absent_content_defaults_witness :
    content_length (samplePage none) = 0 ∧
    json_content_preview (samplePage none).cleaned_html = "" ∧
    mdPreviewBlock (samplePage none).cleaned_html = none ∧
    txtPreviewBlock (samplePage none).cleaned_html = none ∧
    mdPageSection 1 (samplePage none) =
      "## Page " ++ toString 1 ++ "\n\n"
      ++ "**URL:** " ++ (samplePage none).url ++ "\n"
      ++ "**Depth:** " ++ toString (page_depth (samplePage none)) ++ "\n"
      ++ "**Status Code:** " ++ toString (samplePage none).status_code ++ "\n"
      ++ "**Content Length:** " ++ toString (content_length (samplePage none))
      ++ " characters\n\n"
      ++ "---\n\n" ∧
    txtPageSection 1 (samplePage none) =
      "PAGE " ++ toString 1 ++ "\n"
      ++ "URL: " ++ (samplePage none).url ++ "\n"
      ++ "Depth: " ++ toString (page_depth (samplePage none)) ++ "\n"
      ++ "Status Code: " ++ toString (samplePage none).status_code ++ "\n"
      ++ "Content Length: " ++ toString (content_length (samplePage none))
      ++ " characters\n\n"
      ++ sepLine '-' ++ "\n\n" :=
  absent_content_defaults (samplePage none) 1 rfl

/-- C9: a present-but-empty cleaned_content is treated exactly as an absent
one — content_length is 0, the JSON preview is the empty string, and the
markdown section, text section and JSON page object coincide with those of
the same page with cleaned_content removed. -/
theorem empty_content_treated_as_absent (r : PageResult) (i : Nat)
    (h : r.cleaned_html = some "") :
    content_length r = 0 ∧
    json_content_preview r.cleaned_html = "" ∧
    mdPageSection i r = mdPageSection i { r with cleaned_html := none } ∧
    txtPageSection i r = txtPageSection i { r with cleaned_html := none } ∧
    page_data i r = page_data i { r with cleaned_html := none } := by
  refine ⟨?_, ?_, ?_, ?_, ?_⟩ <;>
    simp [content_length, json_content_preview, mdPreviewBlock, txtPreviewBlock,
      mdPageSection, txtPageSection, page_data, pyTruthy, pyOrEmpty, h,
      page_depth, page_title, page_description, links_found, images_found]

theorem empty_content_treated_as_absent_witness :
    content_length (samplePage (some "")) = 0 ∧
    json_content_preview (samplePage (some "")).cleaned_html = "" ∧
    mdPageSection 1 (samplePage (some "")) =
      mdPageSection 1 { samplePage (some "") with cleaned_html := none } ∧
    txtPageSection 1 (samplePage (some "")) =
      txtPageSection 1 { samplePage (some "") with cleaned_html := none } ∧
    page_data 1 (samplePage (some "")) =
      page_data 1 { samplePage (some "") with cleaned_html := none } :=
  empty_content_treated_as_absent (samplePage (some "")) 1 rfl

/-- C10 counterexample: a present-but-empty cleaned_content has length at
most 500, yet the markdown and text outputs emit no preview at all rather
than a preview equal to the (empty) content. -/
theorem short_preview_empty_counterexample :
    ¬ (mdPreviewBlock (some "") = some "" ∧
       txtPreviewBlock (some "") = some "" ∧
       json_content_preview (some "") = "") := by
  decide

/-- C10 (amended to nonempty content): for every PageResult whose
cleaned_content is present, nonempty, and of length at most 500 (including
exactly 500), the preview in all three outputs equals cleaned_content
unchanged, with no ellipsis appended and no truncation. -/
theorem short_content_preview_unchanged (r : PageResult) (c : String)
    (hc : r.cleaned_html = some c) (hne : c ≠ "") (hlen : c.length ≤ 500) :
    mdPreviewBlock r.cleaned_html = some c ∧
    txtPreviewBlock r.cleaned_html = some c ∧
    json_content_preview r.cleaned_html = c := by
  rw [hc]
  simp [mdPreviewBlock, txtPreviewBlock, json_content_preview, preview500,
    pyTruthy, pyOrEmpty, hne, Nat.not_lt.mpr hlen]

theorem short_content_preview_unchanged_witness :
    mdPreviewBlock (samplePage (some fullContent)).cleaned_html = some fullContent ∧
    txtPreviewBlock (samplePage (some fullContent)).cleaned_html = some fullContent ∧
    json_content_preview (samplePage (some fullContent)).cleaned_html = fullContent :=
  short_content_preview_unchanged (samplePage (some fullContent)) fullContent
    rfl (by decide) (by decide)

/-- The length of an enumerated list equals the input's. -/
theorem pyEnumerate_length (n : Nat) (rs : List PageResult) :
    (pyEnumerate n rs).length = rs.length := by
  induction rs generalizing n with
  | nil => rfl
  | cons r rs ih => simp [pyEnumerate, ih]

/-- The k-th enumerated pair carries index n + k and the k-th element. -/
theorem pyEnumerate_getElem (n k : Nat) (rs : List PageResult) :
    (pyEnumerate n rs)[k]? = rs[k]?.map (fun r => (n + k, r)) := by
  induction rs generalizing n k with
  | nil => simp [pyEnumerate]
  | cons r rs ih =>
    cases k with
    | zero => simp [pyEnumerate]
    | succ k =>
      simp only [pyEnumerate, List.getElem?_cons_succ, ih (n + 1) k]
      rw [show n + 1 + k = n + (k + 1) by omega]

/-- C3: the JSON results array, the crawl_info.total_pages_crawled value,
and the count of PageResult in the run are all equal. -/
theorem json_results_length_consistent (d : String) (rs : List PageResult) :
    ∃ ci arr,
      json_data d rs =
        JValue.jobj [("crawl_info", JValue.jobj ci), ("results", JValue.jarr arr)] ∧
      arr.length = rs.length ∧
      ci.lookup "total_pages_crawled" = some (JValue.jnum rs.length) := by
  refine ⟨_, json_results rs, rfl, ?_, ?_⟩
  · simp [json_results, pyEnumerate_length]
  · simp [List.lookup]

/-- C4: in all three outputs, the k-th emitted page (0-based k) is numbered
k + 1 and is rendered from the k-th PageResult of the input sequence, so
numbering starts at 1, increases by exactly 1, and has no gaps. -/
theorem page_numbering_sequential (rs : List PageResult) (k : Nat) :
    (mdsections rs)[k]? = rs[k]?.map (fun r => mdPageSection (k + 1) r) ∧
    (txtsections rs)[k]? = rs[k]?.map (fun r => txtPageSection (k + 1) r) ∧
    (json_results rs)[k]? = rs[k]?.map (fun r => JValue.jobj (page_data (k + 1) r)) := by
  refine ⟨?_, ?_, ?_⟩ <;>
    simp only [mdsections, txtsections, json_results, List.getElem?_map,
      pyEnumerate_getElem, Option.map_map, Nat.add_comm 1 k] <;> rfl

/-- C5: one run computes a single timestamp token and all three output
file names embed that identical token. -/
theorem output_filenames_share_timestamp (dt : PyDateTime) :
    ∃ tok, tok = run_timestamp dt ∧
      output_filenames dt =
        ("crawl_results/crawl_results_" ++ tok ++ ".md",
         "crawl_results/crawl_results_" ++ tok ++ ".txt",
         "crawl_results/crawl_results_" ++ tok ++ ".json") :=
  ⟨run_timestamp dt, rfl, rfl⟩

/-- A page result with every optional field absent. -/
def emptyPage : PageResult :=
  { url := "https://www.wikipedia.org/wiki/Main_Page"
    status_code := 200
    cleaned_html := none
    metadata := { depth := none, title := none, description := none }
    links := none
    media := none }

/-- C6: each missing optional field is replaced by its documented default —
depth 0, title and description empty in the JSON page object, links_found 0,
images_found 0 — rather than failing. -/
theorem missing_field_defaults (r : PageResult) (i : Nat) :
    (r.metadata.depth = none → page_depth r = 0) ∧
    (r.metadata.title = none →
      (page_data i r).lookup "title" = some (JValue.jstr "")) ∧
    (r.metadata.description = none →
      (page_data i r).lookup "description" = some (JValue.jstr "")) ∧
    (r.links = none → links_found r = 0) ∧
    (r.media = none → images_found r = 0) := by
  refine ⟨fun h => ?_, fun h => ?_, fun h => ?_, fun h => ?_, fun h => ?_⟩ <;>
    simp [page_depth, page_title, page_description, links_found, images_found,
      page_data, List.lookup, h]

theorem missing_field_defaults_witness :
    page_depth emptyPage = 0 ∧
    (page_data 1 emptyPage).lookup "title" = some (JValue.jstr "") ∧
    (page_data 1 emptyPage).lookup "description" = some (JValue.jstr "") ∧
    links_found emptyPage = 0 ∧
    images_found emptyPage = 0 :=
  ⟨(missing_field_defaults emptyPage 1).1 rfl,
   (missing_field_defaults emptyPage 1).2.1 rfl,
   (missing_field_defaults emptyPage 1).2.2.1 rfl,
   (missing_field_defaults emptyPage 1).2.2.2.1 rfl,
   (missing_field_defaults emptyPage 1).2.2.2.2 rfl⟩

/-- C7: the orchestrator's single external call uses the hard-coded seed
URL and configuration: max_depth 2, max_pages 200, external links
excluded. -/
theorem fixed_crawl_configuration :
    crawl_invocation.1 = "https://www.wikipedia.org" ∧
    crawl_invocation.2 = config ∧
    config.deep_crawl_strategy.max_depth = 2 ∧
    config.deep_crawl_strategy.max_pages = 200 ∧
    config.deep_crawl_strategy.include_external = false :=
  ⟨rfl, rfl, rfl, rfl, rfl⟩

/-- A character that needs no JSON escape (not a quote, not a backslash,
not a control character) serializes to itself; in particular every
non-ASCII character passes through literally under ensure_ascii=False. -/
theorem escChar_safe (c : Char) (h32 : 32 ≤ c.toNat)
    (hq : c ≠ '\"') (hb : c ≠ '\\') : escChar c = String.singleton c := by
  have hn : c ≠ '\n' := by intro e; rw [e] at h32; exact absurd h32 (by decide)
  have ht : c ≠ '\t' := by intro e; rw [e] at h32; exact absurd h32 (by decide)
  have hr : c ≠ '\r' := by intro e; rw [e] at h32; exact absurd h32 (by decide)
  have hbs : c ≠ Char.ofNat 8 := by intro e; rw [e] at h32; exact absurd h32 (by decide)
  have hf : c ≠ Char.ofNat 12 := by intro e; rw [e] at h32; exact absurd h32 (by decide)
  simp [escChar, hq, hb, hn, ht, hr, hbs, hf, Nat.not_lt.mpr h32]

/-- Character-wise escaping of an escape-free string body is the
identity. -/
theorem escapeChars_safe (l : List Char)
    (h : ∀ c ∈ l, 32 ≤ c.toNat ∧ c ≠ '\"' ∧ c ≠ '\\') :
    escapeChars l = String.mk l := by
  induction l with
  | nil => rfl
  | cons c cs ih =>
    obtain ⟨h32, hq, hb⟩ := h c (List.mem_cons_self c cs)
    have step := escChar_safe c h32 hq hb
    have rest := ih fun x hx => h x (List.mem_cons_of_mem c hx)
    show escChar c ++ escapeChars cs = String.mk (c :: cs)
    rw [step, rest]
    apply String.ext
    simp [String.data_append]

/-- C8: the JSON document is dumped with the per-page keys in the fixed
source order; string values made of escape-free characters (all non-ASCII
characters included) are emitted literally between quotes rather than
escaped; and the serializer produces the two-space-indented multi-line
layout of json.dump(..., indent=2, ensure_ascii=False), shown on a
one-page run containing non-ASCII content. -/
theorem json_serialization_format :
    (∀ i r, (page_data i r).map Prod.fst =
      ["page_number", "url", "depth", "status_code", "content_length",
       "title", "description", "content_preview", "links_found",
       "images_found"]) ∧
    (∀ s : String, (∀ c ∈ s.data, 32 ≤ c.toNat ∧ c ≠ '\"' ∧ c ≠ '\\') →
      jstrLit s = "\"" ++ s ++ "\"") ∧
    jsonDump (json_data "2025-09-21 10:00:00" [samplePage (some "Wikipédia ✓")]) =
      "\x7b\n  \"crawl_info\": \x7b\n    \"crawl_date\": \"2025-09-21 10:00:00\",\n    \"total_pages_crawled\": 1,\n    \"max_pages_limit\": 200,\n    \"starting_url\": \"https://www.wikipedia.org\"\n  \x7d,\n  \"results\": [\n    \x7b\n      \"page_number\": 1,\n      \"url\": \"https://www.wikipedia.org\",\n      \"depth\": 1,\n      \"status_code\": 200,\n      \"content_length\": 11,\n      \"title\": \"Wikipedia\",\n      \"description\": \"Home\",\n      \"content_preview\": \"Wikipédia ✓\",\n      \"links_found\": 2,\n      \"images_found\": 1\n    \x7d\n  ]\n\x7d" := by
  refine ⟨fun i r => rfl, fun s hs => ?_, ?_⟩
  · rw [jstrLit, escapeChars_safe s.data hs]
  · rfl

theorem json_serialization_format_witness :
    (page_data 1 (samplePage none)).map Prod.fst =
      ["page_number", "url", "depth", "status_code", "content_length",
       "title", "description", "content_preview", "links_found",
       "images_found"] ∧
    jstrLit "Wikipédia ✓" = "\"" ++ "Wikipédia ✓" ++ "\"" :=
  ⟨json_serialization_format.1 1 (samplePage none),
   json_serialization_format.2.1 "Wikipédia ✓" (by decide)⟩
